import Mathlib

/-!
Shallow embedding of the `arn` crate (src/lib.rs): an AWS-style ARN
parser and formatter.

Rust `&str` values are modelled as lists of characters (`Str`), and
`byteLen` is the UTF-8 byte length, which is what Rust's `str::len` and
the capacity check of `ArrayString::from` measure.  `splitSep` models
`str::split(sep).collect::<Vec<&str>>()` and `joinSep` models
`Vec::join(sep)` for a one-character separator.
-/

/-- A Rust string slice, modelled as its sequence of characters. -/
abbrev Str := List Char

/-- UTF-8 byte length of a string, as Rust `str::len`. -/
def byteLen (s : Str) : Nat := (s.map Char.utf8Size).sum

/-- The character sequence of a Lean string literal (used to write
concrete Rust strings). -/
def lit (s : String) : Str := s.data

/-- Rust `value.split(sep)` collected into a vector: splits at every
occurrence of `sep`; the empty string yields one empty piece. -/
def splitSep (sep : Char) : Str → List Str
  | [] => [[]]
  | c :: rest =>
    if c = sep then [] :: splitSep sep rest
    else
      match splitSep sep rest with
      | [] => [[c]]
      | h :: t => (c :: h) :: t

/-- Rust `parts.join(sep)` for a one-character separator. -/
def joinSep (sep : Char) : List Str → Str
  | [] => []
  | [s] => s
  | s :: rest => s ++ sep :: joinSep sep rest

theorem splitSep_ne_nil (sep : Char) (s : Str) : splitSep sep s ≠ [] := by
  cases s with
  | nil => simp [splitSep]
  | cons c rest =>
    simp only [splitSep]
    split
    · simp
    · split <;> simp

theorem joinSep_cons_of_ne_nil (sep : Char) (x : Str) (l : List Str) (h : l ≠ []) :
    joinSep sep (x :: l) = x ++ sep :: joinSep sep l := by
  cases l with
  | nil => exact absurd rfl h
  | cons a b => rfl

theorem joinSep_splitSep (sep : Char) (s : Str) : joinSep sep (splitSep sep s) = s := by
  induction s with
  | nil => rfl
  | cons c rest ih =>
    simp only [splitSep]
    by_cases hc : c = sep
    · rw [if_pos hc, joinSep_cons_of_ne_nil sep [] _ (splitSep_ne_nil sep rest), ih, hc]
      rfl
    · rw [if_neg hc]
      cases hrest : splitSep sep rest with
      | nil => exact absurd hrest (splitSep_ne_nil sep rest)
      | cons h t =>
        rw [hrest] at ih
        cases t with
        | nil =>
          simp only [joinSep] at ih ⊢
          rw [ih]
        | cons t0 t1 =>
          simp only [joinSep] at ih ⊢
          rw [List.cons_append, ih]

deriving instance DecidableEq for Except

/-! The error type of `Arn` parsing (`ArnParseError` in src/lib.rs). -/

inductive ArnParseError
  | InvalidFormat (n : Nat)
  | ServiceTooLong
  | AccountTooLong
  | ResourceIdTooLong
  | InvalidRegion (s : Str)
deriving DecidableEq

/-! The closed region enumeration (`Region` in src/lib.rs). -/

inductive Region
  | UsEast1
  | UsEast2
  | UsWest1
  | UsWest2
  | AfSouth1
  | ApEast1
  | ApEast2
  | ApSouth1
  | ApSouth2
  | ApSoutheast1
  | ApSoutheast2
  | ApSoutheast3
  | ApSoutheast4
  | ApSoutheast5
  | ApSoutheast7
  | ApNortheast1
  | ApNortheast2
  | ApNortheast3
  | CaCentral1
  | CaWest1
  | EuCentral1
  | EuCentral2
  | EuWest1
  | EuWest2
  | EuSouth1
  | EuSouth2
  | EuNorth1
  | EuNorth2
  | IlCentral1
  | MxCentral1
  | MeSouth1
  | MeCentral1
  | SaEast1
deriving DecidableEq

/-- The error of the standalone region parser (`RegionError`). -/
inductive RegionError
  | DoesNotExist (s : Str)
deriving DecidableEq

/-- Canonical text of a region (`impl AsRef<str> for Region`). -/
def Region.toStr : Region → Str
  | .UsEast1 => lit "us-east-1"
  | .UsEast2 => lit "us-east-2"
  | .UsWest1 => lit "us-west-1"
  | .UsWest2 => lit "us-west-2"
  | .AfSouth1 => lit "af-south-1"
  | .ApEast1 => lit "ap-east-1"
  | .ApEast2 => lit "ap-east-2"
  | .ApSouth1 => lit "ap-south-1"
  | .ApSouth2 => lit "ap-south-2"
  | .ApSoutheast1 => lit "ap-southeast-1"
  | .ApSoutheast2 => lit "ap-southeast-2"
  | .ApSoutheast3 => lit "ap-southeast-3"
  | .ApSoutheast4 => lit "ap-southeast-4"
  | .ApSoutheast5 => lit "ap-southeast-5"
  | .ApSoutheast7 => lit "ap-southeast-7"
  | .ApNortheast1 => lit "ap-northeast-1"
  | .ApNortheast2 => lit "ap-northeast-2"
  | .ApNortheast3 => lit "ap-northeast-3"
  | .CaCentral1 => lit "ca-central-1"
  | .CaWest1 => lit "ca-west-1"
  | .EuCentral1 => lit "eu-central-1"
  | .EuCentral2 => lit "eu-central-2"
  | .EuWest1 => lit "eu-west-1"
  | .EuWest2 => lit "eu-west-2"
  | .EuSouth1 => lit "eu-south-1"
  | .EuSouth2 => lit "eu-south-2"
  | .EuNorth1 => lit "eu-north-1"
  | .EuNorth2 => lit "eu-north-2"
  | .IlCentral1 => lit "il-central-1"
  | .MxCentral1 => lit "mx-central-1"
  | .MeSouth1 => lit "me-south-1"
  | .MeCentral1 => lit "me-central-1"
  | .SaEast1 => lit "sa-east-1"

/-- The default/global region (`Region::GLOBAL` and `Default`). -/
def Region.GLOBAL : Region := Region.UsEast1

/-- Region parsing (`impl FromStr for Region`): exact match against the
string table, otherwise `DoesNotExist` carrying the offending text. -/
def Region.fromStr (s : Str) : Except RegionError Region :=
  if s = lit "us-east-1" then .ok .UsEast1
  else if s = lit "us-east-2" then .ok .UsEast2
  else if s = lit "us-west-1" then .ok .UsWest1
  else if s = lit "us-west-2" then .ok .UsWest2
  else if s = lit "af-south-1" then .ok .AfSouth1
  else if s = lit "ap-east-1" then .ok .ApEast1
  else if s = lit "ap-east-2" then .ok .ApEast2
  else if s = lit "ap-south-1" then .ok .ApSouth1
  else if s = lit "ap-south-2" then .ok .ApSouth2
  else if s = lit "ap-southeast-1" then .ok .ApSoutheast1
  else if s = lit "ap-southeast-2" then .ok .ApSoutheast2
  else if s = lit "ap-southeast-3" then .ok .ApSoutheast3
  else if s = lit "ap-southeast-4" then .ok .ApSoutheast4
  else if s = lit "ap-southeast-5" then .ok .ApSoutheast5
  else if s = lit "ap-southeast-7" then .ok .ApSoutheast7
  else if s = lit "ap-northeast-1" then .ok .ApNortheast1
  else if s = lit "ap-northeast-2" then .ok .ApNortheast2
  else if s = lit "ap-northeast-3" then .ok .ApNortheast3
  else if s = lit "ca-central-1" then .ok .CaCentral1
  else if s = lit "ca-west-1" then .ok .CaWest1
  else if s = lit "eu-central-1" then .ok .EuCentral1
  else if s = lit "eu-central-2" then .ok .EuCentral2
  else if s = lit "eu-west-1" then .ok .EuWest1
  else if s = lit "eu-west-2" then .ok .EuWest2
  else if s = lit "eu-south-1" then .ok .EuSouth1
  else if s = lit "eu-south-2" then .ok .EuSouth2
  else if s = lit "eu-north-1" then .ok .EuNorth1
  else if s = lit "eu-north-2" then .ok .EuNorth2
  else if s = lit "il-central-1" then .ok .IlCentral1
  else if s = lit "mx-central-1" then .ok .MxCentral1
  else if s = lit "me-south-1" then .ok .MeSouth1
  else if s = lit "me-central-1" then .ok .MeCentral1
  else if s = lit "sa-east-1" then .ok .SaEast1
  else .error (.DoesNotExist s)

/-- The tri-state field wrapper (`Component<V>` in src/lib.rs). -/
inductive Component (V : Type)
  | None
  | Any
  | Value (v : V)
deriving DecidableEq

/-- The parsed ARN aggregate (`Arn` in src/lib.rs).  `ArrayString<N>`
payloads are modelled as the stored character sequence; the capacity
check of `ArrayString::from` is performed by `arrayStringFrom` below. -/
structure Arn where
  service : Component Str
  region : Component Region
  account : Component Str
  resource_id : Component Str
deriving DecidableEq

/-- The all-wildcard constant (`Arn::ANY`). -/
def Arn.ANY : Arn :=
  { service := Component.Any
    region := Component.Any
    account := Component.Any
    resource_id := Component.Any }

/-- Rust `ArrayString::<CAP>::from(s)`: stores `s` verbatim when its
UTF-8 byte length fits the capacity, otherwise fails. -/
def arrayStringFrom (cap : Nat) (s : Str) : Option Str :=
  if byteLen s ≤ cap then some s else none

/-- One bounded-text field block of `Arn::from_str`: empty segment gives
`Component::None`, otherwise `ArrayString::from` with the given capacity,
its error mapped to `tooLong`. -/
def parseBounded (cap : Nat) (tooLong : ArnParseError) (s : Str) :
    Except ArnParseError (Component Str) :=
  if s.isEmpty then .ok .None
  else
    match arrayStringFrom cap s with
    | some v => .ok (.Value v)
    | none => .error tooLong

/-- The service block of `Arn::from_str` (capacity 32, `ServiceTooLong`). -/
def parseService : Str → Except ArnParseError (Component Str) :=
  parseBounded 32 .ServiceTooLong

/-- The account block of `Arn::from_str` (capacity 12, `AccountTooLong`). -/
def parseAccount : Str → Except ArnParseError (Component Str) :=
  parseBounded 12 .AccountTooLong

/-- The resource-id block of `Arn::from_str` (capacity 64,
`ResourceIdTooLong`), applied to the rejoined resource part. -/
def parseResourceId : Str → Except ArnParseError (Component Str) :=
  parseBounded 64 .ResourceIdTooLong

/-- The region block of `Arn::from_str`: empty segment gives
`Component::None`, otherwise `parts[3].parse()` with its error mapped to
`InvalidRegion` carrying the segment text. -/
def parseRegion (s : Str) : Except ArnParseError (Component Region) :=
  if s.isEmpty then .ok .None
  else
    match Region.fromStr s with
    | .ok r => .ok (.Value r)
    | .error _ => .error (.InvalidRegion s)

/-- The four field blocks of `Arn::from_str` run in source order with
`?`-style early return, then the aggregate is assembled. -/
def parseFields (svc reg acct rid : Str) : Except ArnParseError Arn :=
  match parseService svc with
  | .error e => .error e
  | .ok service =>
    match parseRegion reg with
    | .error e => .error e
    | .ok region =>
      match parseAccount acct with
      | .error e => .error e
      | .ok account =>
        match parseResourceId rid with
        | .error e => .error e
        | .ok resource_id => .ok ⟨service, region, account, resource_id⟩

/-- `Arn::from_str`: split on the separator, require at least 6 parts
(else `InvalidFormat` with the observed count), take parts 2, 3 and 4 as
service, region and account, and rejoin parts 5.. as the resource id. -/
def Arn.fromStr (value : Str) : Except ArnParseError Arn :=
  let parts := splitSep ':' value
  if parts.length < 6 then .error (.InvalidFormat parts.length)
  else
    parseFields (parts.getD 2 []) (parts.getD 3 []) (parts.getD 4 [])
      (joinSep ':' (parts.drop 5))

/-- Field rendering inside `impl fmt::Display for Arn`: a `Value` by its
payload's text, `Any` as the wildcard marker, `None` as nothing. -/
def Component.render {V : Type} (f : V → Str) : Component V → Str
  | .None => []
  | .Any => lit "*"
  | .Value v => f v

/-- `impl fmt::Display for Arn`: the fixed `arn` and `aws` literals and
the four rendered fields, joined by the separator
(`write!(f, "arn:aws:\x7b\x7d:\x7b\x7d:\x7b\x7d:\x7b\x7d", ...)`). -/
def Arn.toStr (a : Arn) : Str :=
  joinSep ':'
    [lit "arn", lit "aws",
      Component.render id a.service,
      Component.render Region.toStr a.region,
      Component.render id a.account,
      Component.render id a.resource_id]

example : Arn.toStr Arn.ANY = lit "arn:aws:*:*:*:*" := by decide

/-! Helper lemmas shared by the claim theorems. -/

theorem region_total (s : Str) :
    Region.fromStr s = .error (.DoesNotExist s) ∨
      ∃ r, Region.fromStr s = .ok r ∧ Region.toStr r = s := by
  unfold Region.fromStr
  by_cases h1 : s = lit "us-east-1"
  · rw [if_pos h1]
    exact Or.inr ⟨Region.UsEast1, rfl, h1.symm⟩
  rw [if_neg h1]
  by_cases h2 : s = lit "us-east-2"
  · rw [if_pos h2]
    exact Or.inr ⟨Region.UsEast2, rfl, h2.symm⟩
  rw [if_neg h2]
  by_cases h3 : s = lit "us-west-1"
  · rw [if_pos h3]
    exact Or.inr ⟨Region.UsWest1, rfl, h3.symm⟩
  rw [if_neg h3]
  by_cases h4 : s = lit "us-west-2"
  · rw [if_pos h4]
    exact Or.inr ⟨Region.UsWest2, rfl, h4.symm⟩
  rw [if_neg h4]
  by_cases h5 : s = lit "af-south-1"
  · rw [if_pos h5]
    exact Or.inr ⟨Region.AfSouth1, rfl, h5.symm⟩
  rw [if_neg h5]
  by_cases h6 : s = lit "ap-east-1"
  · rw [if_pos h6]
    exact Or.inr ⟨Region.ApEast1, rfl, h6.symm⟩
  rw [if_neg h6]
  by_cases h7 : s = lit "ap-east-2"
  · rw [if_pos h7]
    exact Or.inr ⟨Region.ApEast2, rfl, h7.symm⟩
  rw [if_neg h7]
  by_cases h8 : s = lit "ap-south-1"
  · rw [if_pos h8]
    exact Or.inr ⟨Region.ApSouth1, rfl, h8.symm⟩
  rw [if_neg h8]
  by_cases h9 : s = lit "ap-south-2"
  · rw [if_pos h9]
    exact Or.inr ⟨Region.ApSouth2, rfl, h9.symm⟩
  rw [if_neg h9]
  by_cases h10 : s = lit "ap-southeast-1"
  · rw [if_pos h10]
    exact Or.inr ⟨Region.ApSoutheast1, rfl, h10.symm⟩
  rw [if_neg h10]
  by_cases h11 : s = lit "ap-southeast-2"
  · rw [if_pos h11]
    exact Or.inr ⟨Region.ApSoutheast2, rfl, h11.symm⟩
  rw [if_neg h11]
  by_cases h12 : s = lit "ap-southeast-3"
  · rw [if_pos h12]
    exact Or.inr ⟨Region.ApSoutheast3, rfl, h12.symm⟩
  rw [if_neg h12]
  by_cases h13 : s = lit "ap-southeast-4"
  · rw [if_pos h13]
    exact Or.inr ⟨Region.ApSoutheast4, rfl, h13.symm⟩
  rw [if_neg h13]
  by_cases h14 : s = lit "ap-southeast-5"
  · rw [if_pos h14]
    exact Or.inr ⟨Region.ApSoutheast5, rfl, h14.symm⟩
  rw [if_neg h14]
  by_cases h15 : s = lit "ap-southeast-7"
  · rw [if_pos h15]
    exact Or.inr ⟨Region.ApSoutheast7, rfl, h15.symm⟩
  rw [if_neg h15]
  by_cases h16 : s = lit "ap-northeast-1"
  · rw [if_pos h16]
    exact Or.inr ⟨Region.ApNortheast1, rfl, h16.symm⟩
  rw [if_neg h16]
  by_cases h17 : s = lit "ap-northeast-2"
  · rw [if_pos h17]
    exact Or.inr ⟨Region.ApNortheast2, rfl, h17.symm⟩
  rw [if_neg h17]
  by_cases h18 : s = lit "ap-northeast-3"
  · rw [if_pos h18]
    exact Or.inr ⟨Region.ApNortheast3, rfl, h18.symm⟩
  rw [if_neg h18]
  by_cases h19 : s = lit "ca-central-1"
  · rw [if_pos h19]
    exact Or.inr ⟨Region.CaCentral1, rfl, h19.symm⟩
  rw [if_neg h19]
  by_cases h20 : s = lit "ca-west-1"
  · rw [if_pos h20]
    exact Or.inr ⟨Region.CaWest1, rfl, h20.symm⟩
  rw [if_neg h20]
  by_cases h21 : s = lit "eu-central-1"
  · rw [if_pos h21]
    exact Or.inr ⟨Region.EuCentral1, rfl, h21.symm⟩
  rw [if_neg h21]
  by_cases h22 : s = lit "eu-central-2"
  · rw [if_pos h22]
    exact Or.inr ⟨Region.EuCentral2, rfl, h22.symm⟩
  rw [if_neg h22]
  by_cases h23 : s = lit "eu-west-1"
  · rw [if_pos h23]
    exact Or.inr ⟨Region.EuWest1, rfl, h23.symm⟩
  rw [if_neg h23]
  by_cases h24 : s = lit "eu-west-2"
  · rw [if_pos h24]
    exact Or.inr ⟨Region.EuWest2, rfl, h24.symm⟩
  rw [if_neg h24]
  by_cases h25 : s = lit "eu-south-1"
  · rw [if_pos h25]
    exact Or.inr ⟨Region.EuSouth1, rfl, h25.symm⟩
  rw [if_neg h25]
  by_cases h26 : s = lit "eu-south-2"
  · rw [if_pos h26]
    exact Or.inr ⟨Region.EuSouth2, rfl, h26.symm⟩
  rw [if_neg h26]
  by_cases h27 : s = lit "eu-north-1"
  · rw [if_pos h27]
    exact Or.inr ⟨Region.EuNorth1, rfl, h27.symm⟩
  rw [if_neg h27]
  by_cases h28 : s = lit "eu-north-2"
  · rw [if_pos h28]
    exact Or.inr ⟨Region.EuNorth2, rfl, h28.symm⟩
  rw [if_neg h28]
  by_cases h29 : s = lit "il-central-1"
  · rw [if_pos h29]
    exact Or.inr ⟨Region.IlCentral1, rfl, h29.symm⟩
  rw [if_neg h29]
  by_cases h30 : s = lit "mx-central-1"
  · rw [if_pos h30]
    exact Or.inr ⟨Region.MxCentral1, rfl, h30.symm⟩
  rw [if_neg h30]
  by_cases h31 : s = lit "me-south-1"
  · rw [if_pos h31]
    exact Or.inr ⟨Region.MeSouth1, rfl, h31.symm⟩
  rw [if_neg h31]
  by_cases h32 : s = lit "me-central-1"
  · rw [if_pos h32]
    exact Or.inr ⟨Region.MeCentral1, rfl, h32.symm⟩
  rw [if_neg h32]
  by_cases h33 : s = lit "sa-east-1"
  · rw [if_pos h33]
    exact Or.inr ⟨Region.SaEast1, rfl, h33.symm⟩
  rw [if_neg h33]
  exact Or.inl rfl

theorem Region.fromStr_toStr (s : Str) (r : Region) (h : Region.fromStr s = .ok r) :
    Region.toStr r = s := by
  rcases region_total s with herr | ⟨r', hok, hto⟩
  · rw [h] at herr
    exact absurd herr (by simp)
  · rw [h] at hok
    injection hok with hr
    rw [hr]
    exact hto

theorem Region.toStr_fromStr (r : Region) : Region.fromStr (Region.toStr r) = .ok r := by
  cases r <;> rfl

theorem parseBounded_ok_iff (cap : Nat) (e : ArnParseError) (s : Str) (c : Component Str) :
    parseBounded cap e s = .ok c ↔
      (s = [] ∧ c = .None) ∨ (s ≠ [] ∧ byteLen s ≤ cap ∧ c = .Value s) := by
  unfold parseBounded arrayStringFrom
  rcases s with _ | ⟨a, b⟩
  · simp [eq_comm]
  · simp only [List.isEmpty_cons, if_false, Bool.false_eq_true]
    split_ifs with hlen
    · simp [hlen, eq_comm]
    · simp [hlen]

theorem parseBounded_err_iff (cap : Nat) (e : ArnParseError) (s : Str) (e' : ArnParseError) :
    parseBounded cap e s = .error e' ↔ s ≠ [] ∧ ¬ byteLen s ≤ cap ∧ e' = e := by
  unfold parseBounded arrayStringFrom
  rcases s with _ | ⟨a, b⟩
  · simp
  · simp only [List.isEmpty_cons, if_false, Bool.false_eq_true]
    split_ifs with hlen
    · simp [hlen]
    · simp [hlen, eq_comm]

theorem parseRegion_ok_iff (s : Str) (c : Component Region) :
    parseRegion s = .ok c ↔
      (s = [] ∧ c = .None) ∨
        (s ≠ [] ∧ ∃ r, Region.fromStr s = .ok r ∧ c = .Value r) := by
  unfold parseRegion
  rcases s with _ | ⟨a, b⟩
  · simp [eq_comm]
  · simp only [List.isEmpty_cons, if_false, Bool.false_eq_true]
    cases hr : Region.fromStr (a :: b) with
    | ok r => simp [eq_comm]
    | error e => simp

theorem parseRegion_err_iff (s : Str) (e' : ArnParseError) :
    parseRegion s = .error e' ↔
      s ≠ [] ∧ (∃ msg, Region.fromStr s = .error msg) ∧ e' = .InvalidRegion s := by
  unfold parseRegion
  rcases s with _ | ⟨a, b⟩
  · simp
  · simp only [List.isEmpty_cons, if_false, Bool.false_eq_true]
    cases hr : Region.fromStr (a :: b) with
    | ok r => simp
    | error e => simp [eq_comm]

theorem parseFields_ok_iff (svc reg acct rid : Str) (a : Arn) :
    parseFields svc reg acct rid = .ok a ↔
      parseService svc = .ok a.service ∧ parseRegion reg = .ok a.region ∧
        parseAccount acct = .ok a.account ∧ parseResourceId rid = .ok a.resource_id := by
  unfold parseFields
  cases hs : parseService svc with
  | error e => simp [hs]
  | ok cs =>
    cases hr : parseRegion reg with
    | error e => simp [hs, hr]
    | ok cr =>
      cases ha : parseAccount acct with
      | error e => simp [hs, hr, ha]
      | ok ca =>
        cases hi : parseResourceId rid with
        | error e => simp [hs, hr, ha, hi]
        | ok ci =>
          constructor
          · intro h
            injection h with h
            subst h
            exact ⟨rfl, rfl, rfl, rfl⟩
          · rintro ⟨h1, h2, h3, h4⟩
            rcases a with ⟨a1, a2, a3, a4⟩
            injection h1 with h1
            injection h2 with h2
            injection h3 with h3
            injection h4 with h4
            subst h1
            subst h2
            subst h3
            subst h4
            rfl

theorem Arn.fromStr_eq (t p0 p1 svc reg acct : Str) (rest : List Str)
    (h : splitSep ':' t = p0 :: p1 :: svc :: reg :: acct :: rest) (hne : rest ≠ []) :
    Arn.fromStr t = parseFields svc reg acct (joinSep ':' rest) := by
  rcases rest with _ | ⟨r0, rs⟩
  · exact absurd rfl hne
  · unfold Arn.fromStr
    rw [h]
    simp [List.getD]

theorem Arn.fromStr_short (t : Str) (h : (splitSep ':' t).length < 6) :
    Arn.fromStr t = .error (.InvalidFormat (splitSep ':' t).length) := by
  unfold Arn.fromStr
  rw [if_pos h]

theorem Region.toStr_ne_nil (r : Region) : Region.toStr r ≠ [] := by
  cases r <;> decide

theorem parseBounded_ok_of_le (cap : Nat) (e : ArnParseError) (s : Str)
    (h : byteLen s ≤ cap) :
    ∃ c, parseBounded cap e s = .ok c ∧ (s = [] → c = .None) := by
  rcases s with _ | ⟨a, b⟩
  · exact ⟨.None, rfl, fun _ => rfl⟩
  · refine ⟨.Value (a :: b), ?_, by simp⟩
    exact (parseBounded_ok_iff cap e (a :: b) _).mpr (Or.inr ⟨by simp, h, rfl⟩)

theorem parseBounded_render (cap : Nat) (e : ArnParseError) (s : Str) (c : Component Str)
    (h : parseBounded cap e s = .ok c) : Component.render id c = s := by
  rcases (parseBounded_ok_iff cap e s c).mp h with ⟨hs, hc⟩ | ⟨hs, hlen, hc⟩
  · rw [hs, hc]
    rfl
  · rw [hc]
    rfl

theorem parseBounded_ok_ne_any (cap : Nat) (e : ArnParseError) (s : Str) (c : Component Str)
    (h : parseBounded cap e s = .ok c) : c ≠ .Any := by
  rcases (parseBounded_ok_iff cap e s c).mp h with ⟨hs, hc⟩ | ⟨hs, hlen, hc⟩ <;>
    rw [hc] <;> simp

theorem parseRegion_ok_of (s : Str) (h : s = [] ∨ ∃ r, Region.toStr r = s) :
    ∃ c, parseRegion s = .ok c ∧ (s = [] → c = .None) := by
  rcases h with hnil | ⟨r, hr⟩
  · subst hnil
    exact ⟨.None, rfl, fun _ => rfl⟩
  · refine ⟨.Value r, ?_, fun hnil => absurd (hr.trans hnil) (Region.toStr_ne_nil r)⟩
    refine (parseRegion_ok_iff s _).mpr (Or.inr ⟨?_, r, ?_, rfl⟩)
    · intro hnil
      exact absurd (hr.trans hnil) (Region.toStr_ne_nil r)
    · rw [← hr]
      exact Region.toStr_fromStr r

theorem parseRegion_render (s : Str) (c : Component Region)
    (h : parseRegion s = .ok c) : Component.render Region.toStr c = s := by
  rcases (parseRegion_ok_iff s c).mp h with ⟨hs, hc⟩ | ⟨hs, r, hr, hc⟩
  · rw [hs, hc]
    rfl
  · rw [hc]
    exact Region.fromStr_toStr s r hr

theorem parseRegion_ok_ne_any (s : Str) (c : Component Region)
    (h : parseRegion s = .ok c) : c ≠ .Any := by
  rcases (parseRegion_ok_iff s c).mp h with ⟨hs, hc⟩ | ⟨hs, r, hr, hc⟩ <;>
    rw [hc] <;> simp

theorem fromStr_ok_of_valid (t p0 p1 svc reg acct : Str) (rest : List Str)
    (hsplit : splitSep ':' t = p0 :: p1 :: svc :: reg :: acct :: rest)
    (hrest : rest ≠ [])
    (hsvc : byteLen svc ≤ 32) (hacct : byteLen acct ≤ 12)
    (hrid : byteLen (joinSep ':' rest) ≤ 64)
    (hreg : reg = [] ∨ ∃ r, Region.toStr r = reg) :
    ∃ a, Arn.fromStr t = .ok a ∧
      Component.render id a.service = svc ∧
      Component.render Region.toStr a.region = reg ∧
      Component.render id a.account = acct ∧
      Component.render id a.resource_id = joinSep ':' rest ∧
      (reg = [] → a.region = .None) := by
  obtain ⟨cs, hcs, -⟩ := parseBounded_ok_of_le 32 .ServiceTooLong svc hsvc
  obtain ⟨cr, hcr, hcrnil⟩ := parseRegion_ok_of reg hreg
  obtain ⟨ca, hca, -⟩ := parseBounded_ok_of_le 12 .AccountTooLong acct hacct
  obtain ⟨ci, hci, -⟩ := parseBounded_ok_of_le 64 .ResourceIdTooLong (joinSep ':' rest) hrid
  refine ⟨⟨cs, cr, ca, ci⟩, ?_, ?_, ?_, ?_, ?_, hcrnil⟩
  · rw [Arn.fromStr_eq t p0 p1 svc reg acct rest hsplit hrest]
    exact (parseFields_ok_iff svc reg acct (joinSep ':' rest) _).mpr ⟨hcs, hcr, hca, hci⟩
  · exact parseBounded_render 32 .ServiceTooLong svc cs hcs
  · exact parseRegion_render reg cr hcr
  · exact parseBounded_render 12 .AccountTooLong acct ca hca
  · exact parseBounded_render 64 .ResourceIdTooLong (joinSep ':' rest) ci hci

theorem joinSep_six (sep : Char) (x0 x1 x2 x3 x4 : Str) (rest : List Str) (h : rest ≠ []) :
    joinSep sep [x0, x1, x2, x3, x4, joinSep sep rest] =
      joinSep sep (x0 :: x1 :: x2 :: x3 :: x4 :: rest) := by
  have h4 := joinSep_cons_of_ne_nil sep x4 rest h
  have h3 := joinSep_cons_of_ne_nil sep x3 (x4 :: rest) (by simp)
  have h2 := joinSep_cons_of_ne_nil sep x2 (x3 :: x4 :: rest) (by simp)
  have h1 := joinSep_cons_of_ne_nil sep x1 (x2 :: x3 :: x4 :: rest) (by simp)
  have h0 := joinSep_cons_of_ne_nil sep x0 (x1 :: x2 :: x3 :: x4 :: rest) (by simp)
  rw [h0, h1, h2, h3, h4]
  rfl

theorem roundtrip_core (t svc reg acct : Str) (rest : List Str)
    (hsplit : splitSep ':' t = lit "arn" :: lit "aws" :: svc :: reg :: acct :: rest)
    (hrest : rest ≠ [])
    (hsvc : byteLen svc ≤ 32) (hacct : byteLen acct ≤ 12)
    (hrid : byteLen (joinSep ':' rest) ≤ 64)
    (hreg : reg = [] ∨ ∃ r, Region.toStr r = reg) :
    ∃ a, Arn.fromStr t = .ok a ∧ Arn.toStr a = t ∧ (reg = [] → a.region = .None) := by
  obtain ⟨a, hok, hs, hr, hc, hi, hnil⟩ :=
    fromStr_ok_of_valid t (lit "arn") (lit "aws") svc reg acct rest hsplit hrest
      hsvc hacct hrid hreg
  refine ⟨a, hok, ?_, hnil⟩
  unfold Arn.toStr
  rw [hs, hr, hc, hi, joinSep_six ':' (lit "arn") (lit "aws") svc reg acct rest hrest,
    ← hsplit, joinSep_splitSep]

theorem parseFields_err_service (svc reg acct rid : Str) (e : ArnParseError)
    (h : parseService svc = .error e) : parseFields svc reg acct rid = .error e := by
  unfold parseFields
  rw [h]

theorem parseFields_err_region (svc reg acct rid : Str) (c : Component Str) (e : ArnParseError)
    (h1 : parseService svc = .ok c) (h : parseRegion reg = .error e) :
    parseFields svc reg acct rid = .error e := by
  unfold parseFields
  rw [h1, h]

theorem parseFields_err_account (svc reg acct rid : Str) (c1 : Component Str)
    (c2 : Component Region) (e : ArnParseError)
    (h1 : parseService svc = .ok c1) (h2 : parseRegion reg = .ok c2)
    (h : parseAccount acct = .error e) : parseFields svc reg acct rid = .error e := by
  unfold parseFields
  rw [h1, h2, h]

theorem parseFields_err_resource (svc reg acct rid : Str) (c1 : Component Str)
    (c2 : Component Region) (c3 : Component Str) (e : ArnParseError)
    (h1 : parseService svc = .ok c1) (h2 : parseRegion reg = .ok c2)
    (h3 : parseAccount acct = .ok c3) (h : parseResourceId rid = .error e) :
    parseFields svc reg acct rid = .error e := by
  unfold parseFields
  rw [h1, h2, h3, h]

theorem byteLen_nil_le (cap : Nat) : byteLen [] ≤ cap := by
  simp [byteLen]

theorem fromStr_service_too_long (t p0 p1 svc reg acct : Str) (rest : List Str)
    (hsplit : splitSep ':' t = p0 :: p1 :: svc :: reg :: acct :: rest)
    (hrest : rest ≠ []) (h : ¬ byteLen svc ≤ 32) :
    Arn.fromStr t = .error .ServiceTooLong := by
  rw [Arn.fromStr_eq t p0 p1 svc reg acct rest hsplit hrest]
  refine parseFields_err_service svc reg acct _ _ ?_
  refine (parseBounded_err_iff 32 .ServiceTooLong svc _).mpr ⟨?_, h, rfl⟩
  intro hnil
  rw [hnil] at h
  exact h (byteLen_nil_le 32)

theorem fromStr_account_too_long (t p0 p1 svc reg acct : Str) (rest : List Str)
    (hsplit : splitSep ':' t = p0 :: p1 :: svc :: reg :: acct :: rest)
    (hrest : rest ≠ []) (hsvc : byteLen svc ≤ 32)
    (hreg : reg = [] ∨ ∃ r, Region.toStr r = reg)
    (h : ¬ byteLen acct ≤ 12) :
    Arn.fromStr t = .error .AccountTooLong := by
  rw [Arn.fromStr_eq t p0 p1 svc reg acct rest hsplit hrest]
  obtain ⟨cs, hcs, -⟩ := parseBounded_ok_of_le 32 .ServiceTooLong svc hsvc
  obtain ⟨cr, hcr, -⟩ := parseRegion_ok_of reg hreg
  refine parseFields_err_account svc reg acct _ cs cr _ hcs hcr ?_
  refine (parseBounded_err_iff 12 .AccountTooLong acct _).mpr ⟨?_, h, rfl⟩
  intro hnil
  rw [hnil] at h
  exact h (byteLen_nil_le 12)

theorem fromStr_resource_too_long (t p0 p1 svc reg acct : Str) (rest : List Str)
    (hsplit : splitSep ':' t = p0 :: p1 :: svc :: reg :: acct :: rest)
    (hrest : rest ≠ []) (hsvc : byteLen svc ≤ 32)
    (hreg : reg = [] ∨ ∃ r, Region.toStr r = reg)
    (hacct : byteLen acct ≤ 12)
    (h : ¬ byteLen (joinSep ':' rest) ≤ 64) :
    Arn.fromStr t = .error .ResourceIdTooLong := by
  rw [Arn.fromStr_eq t p0 p1 svc reg acct rest hsplit hrest]
  obtain ⟨cs, hcs, -⟩ := parseBounded_ok_of_le 32 .ServiceTooLong svc hsvc
  obtain ⟨cr, hcr, -⟩ := parseRegion_ok_of reg hreg
  obtain ⟨ca, hca, -⟩ := parseBounded_ok_of_le 12 .AccountTooLong acct hacct
  refine parseFields_err_resource svc reg acct _ cs cr ca _ hcs hcr hca ?_
  refine (parseBounded_err_iff 64 .ResourceIdTooLong _ _).mpr ⟨?_, h, rfl⟩
  intro hnil
  rw [hnil] at h
  exact h (byteLen_nil_le 64)

theorem fromStr_invalid_region (t p0 p1 svc reg acct : Str) (rest : List Str)
    (hsplit : splitSep ':' t = p0 :: p1 :: svc :: reg :: acct :: rest)
    (hrest : rest ≠ []) (hsvc : byteLen svc ≤ 32)
    (hne : reg ≠ []) (herr : ∃ msg, Region.fromStr reg = .error msg) :
    Arn.fromStr t = .error (.InvalidRegion reg) := by
  rw [Arn.fromStr_eq t p0 p1 svc reg acct rest hsplit hrest]
  obtain ⟨cs, hcs, -⟩ := parseBounded_ok_of_le 32 .ServiceTooLong svc hsvc
  refine parseFields_err_region svc reg acct _ cs _ hcs ?_
  exact (parseRegion_err_iff reg _).mpr ⟨hne, herr, rfl⟩

theorem fromStr_ok_inv (t : Str) (a : Arn) (h : Arn.fromStr t = .ok a) :
    parseService ((splitSep ':' t).getD 2 []) = .ok a.service ∧
      parseRegion ((splitSep ':' t).getD 3 []) = .ok a.region ∧
      parseAccount ((splitSep ':' t).getD 4 []) = .ok a.account ∧
      parseResourceId (joinSep ':' ((splitSep ':' t).drop 5)) = .ok a.resource_id := by
  by_cases hlen : (splitSep ':' t).length < 6
  · rw [Arn.fromStr_short t hlen] at h
    exact absurd h (by simp)
  · unfold Arn.fromStr at h
    simp only [] at h
    rw [if_neg hlen] at h
    exact (parseFields_ok_iff _ _ _ _ a).mp h

theorem splitSep_shape_of_six (t : Str) (h6 : 6 ≤ (splitSep ':' t).length) :
    ∃ p0 p1 svc reg acct rest, rest ≠ [] ∧
      splitSep ':' t = p0 :: p1 :: svc :: reg :: acct :: rest := by
  rcases hp : splitSep ':' t with
    _ | ⟨p0, _ | ⟨p1, _ | ⟨svc, _ | ⟨reg, _ | ⟨acct, _ | ⟨r0, rs⟩⟩⟩⟩⟩⟩ <;> rw [hp] at h6
  · simp at h6
  · simp at h6
  · simp at h6
  · simp at h6
  · simp at h6
  · simp at h6
  · exact ⟨p0, p1, svc, reg, acct, r0 :: rs, by simp, rfl⟩

theorem fromStr_congr (t1 t2 : Str)
    (hlen : (splitSep ':' t1).length = (splitSep ':' t2).length)
    (h6 : 6 ≤ (splitSep ':' t1).length)
    (hdrop : (splitSep ':' t1).drop 2 = (splitSep ':' t2).drop 2) :
    Arn.fromStr t1 = Arn.fromStr t2 := by
  obtain ⟨p0, p1, svc, reg, acct, rest, hrest, hp1⟩ := splitSep_shape_of_six t1 h6
  obtain ⟨q0, q1, svc2, reg2, acct2, rest2, hrest2, hp2⟩ :=
    splitSep_shape_of_six t2 (hlen ▸ h6)
  rw [hp1, hp2] at hdrop
  simp only [List.drop_succ_cons, List.drop_zero] at hdrop
  injection hdrop with h1 hdrop
  injection hdrop with h2 hdrop
  injection hdrop with h3 h4
  rw [Arn.fromStr_eq t1 p0 p1 svc reg acct rest hp1 hrest,
    Arn.fromStr_eq t2 q0 q1 svc2 reg2 acct2 rest2 hp2 hrest2, h1, h2, h3, h4]

/-! Claim theorems. -/

/-- C1 counterexample: the parser does not recognize the wildcard marker
before the type-specific constructor runs.  A region segment `*` is fed
to the region parser and fails with `InvalidRegion("*")` instead of
producing a Wildcard region component, and a service segment `*` parses
as the concrete text `*` rather than Wildcard. -/
theorem wildcard_region_rejected :
    Arn.fromStr (lit "arn:aws:s3:*:123456789012:r") = .error (.InvalidRegion (lit "*")) ∧
      Arn.fromStr (lit "arn:aws:*:us-east-1:123456789012:r") =
        .ok ⟨.Value (lit "*"), .Value .UsEast1, .Value (lit "123456789012"),
          .Value (lit "r")⟩ := by
  decide

/-- C1 (amended): no field of `Arn::from_str` treats the wildcard marker
`*` specially.  A region segment `*` is passed to `Region::from_str` and
fails with `InvalidRegion` carrying `*`; a service, account or resource
segment `*` is stored as a concrete `Value` holding the one-character
text `*`, never as Wildcard. -/
theorem wildcard_not_special :
    parseService (lit "*") = .ok (.Value (lit "*")) ∧
      parseRegion (lit "*") = .error (.InvalidRegion (lit "*")) ∧
      parseAccount (lit "*") = .ok (.Value (lit "*")) ∧
      parseResourceId (lit "*") = .ok (.Value (lit "*")) ∧
      Arn.fromStr (lit "arn:aws:*:us-east-1:*:*") =
        .ok ⟨.Value (lit "*"), .Value .UsEast1, .Value (lit "*"), .Value (lit "*")⟩ := by
  decide

/-- C2 counterexample: the round-trip property fails as stated.  A text
whose region segment is `*` does not parse at all (it fails with
`InvalidRegion("*")`); a text whose first two segments are not the
literals `arn` and `aws` parses but renders to a different text; and a
service segment of 17 characters (34 UTF-8 bytes) is rejected even
though it has at most 32 characters, because the bound is on bytes. -/
theorem roundtrip_claim_counterexample :
    Arn.fromStr (lit "arn:aws:iam:*:123456789012:role/x") =
        .error (.InvalidRegion (lit "*")) ∧
      (Arn.fromStr (lit "x:y:s3:us-east-1:123456789012:r")).map Arn.toStr =
        .ok (lit "arn:aws:s3:us-east-1:123456789012:r") ∧
      lit "arn:aws:s3:us-east-1:123456789012:r" ≠ lit "x:y:s3:us-east-1:123456789012:r" ∧
      (lit "ééééééééééééééééé").length = 17 ∧
      Arn.fromStr (lit "arn:aws:ééééééééééééééééé:us-east-1:123456789012:r") =
        .error .ServiceTooLong := by
  refine ⟨by decide, by decide, by decide, by decide, by decide⟩

/-- C2 (amended): for every text `t` that splits into the literal
segments `arn` and `aws` followed by at least four more segments, with a
service segment of at most 32 UTF-8 bytes, an account segment of at most
12 bytes, a rejoined resource id of at most 64 bytes, and a region
segment that is empty or a region-table entry (the wildcard `*` is
excluded: it is rejected as InvalidRegion), parsing `t` succeeds and
rendering the parsed value returns exactly `t`; an empty region segment
parses as Absent and still renders back to the identical text. -/
theorem arn_roundtrip (t svc reg acct : Str) (rest : List Str)
    (hsplit : splitSep ':' t = lit "arn" :: lit "aws" :: svc :: reg :: acct :: rest)
    (hrest : rest ≠ [])
    (hsvc : byteLen svc ≤ 32) (hacct : byteLen acct ≤ 12)
    (hrid : byteLen (joinSep ':' rest) ≤ 64)
    (hreg : reg = [] ∨ ∃ r, Region.toStr r = reg) :
    ∃ a, Arn.fromStr t = .ok a ∧ Arn.toStr a = t ∧ (reg = [] → a.region = .None) :=
  roundtrip_core t svc reg acct rest hsplit hrest hsvc hacct hrid hreg

/-- C2 witness: the empty-region text round-trips and parses its region
as Absent. -/
theorem arn_roundtrip_witness :
    ∃ a, Arn.fromStr (lit "arn:aws:iam::123456789012:role/my-role") = .ok a ∧
      Arn.toStr a = lit "arn:aws:iam::123456789012:role/my-role" ∧
      a.region = Component.None := by
  obtain ⟨a, h1, h2, h3⟩ := arn_roundtrip (lit "arn:aws:iam::123456789012:role/my-role")
    (lit "iam") [] (lit "123456789012") [lit "role/my-role"]
    (by decide) (by decide) (by decide) (by decide) (by decide) (Or.inl rfl)
  exact ⟨a, h1, h2, h3 rfl⟩

/-- C3: a text that splits into fewer than 6 segments fails with
`InvalidFormat` carrying the observed segment count, and a text with
exactly 6 segments whose field contents are valid parses successfully. -/
theorem segment_count_boundary (t : Str) :
    ((splitSep ':' t).length < 6 →
      Arn.fromStr t = .error (.InvalidFormat (splitSep ':' t).length)) ∧
      (∀ p0 p1 svc reg acct rid, splitSep ':' t = [p0, p1, svc, reg, acct, rid] →
        byteLen svc ≤ 32 → byteLen acct ≤ 12 → byteLen rid ≤ 64 →
        (reg = [] ∨ ∃ r, Region.toStr r = reg) →
        ∃ a, Arn.fromStr t = .ok a) := by
  constructor
  · exact Arn.fromStr_short t
  · intro p0 p1 svc reg acct rid hsplit hsvc hacct hrid hreg
    obtain ⟨a, hok, -⟩ := fromStr_ok_of_valid t p0 p1 svc reg acct [rid] hsplit
      (by simp) hsvc hacct hrid hreg
    exact ⟨a, hok⟩

/-- C3 witness: a 5-segment text fails with `InvalidFormat 5` and a
valid 6-segment text parses. -/
theorem segment_count_boundary_witness :
    Arn.fromStr (lit "arn:aws:s3:us-east-1:123456789012") = .error (.InvalidFormat 5) ∧
      ∃ a, Arn.fromStr (lit "arn:aws:s3:us-east-1:123456789012:bucket") = .ok a := by
  constructor
  · have h := (segment_count_boundary (lit "arn:aws:s3:us-east-1:123456789012")).1 (by decide)
    exact h.trans (by decide)
  · exact (segment_count_boundary (lit "arn:aws:s3:us-east-1:123456789012:bucket")).2
      (lit "arn") (lit "aws") (lit "s3") (lit "us-east-1") (lit "123456789012") (lit "bucket")
      (by decide) (by decide) (by decide) (by decide) (Or.inr ⟨Region.UsEast1, rfl⟩)

/-- C5: the region string mapping is a bijection: every variant parses
back from its canonical text, and any string that is the text of no
variant fails with `DoesNotExist` carrying exactly that string. -/
theorem region_bijection :
    (∀ r : Region, Region.fromStr (Region.toStr r) = .ok r) ∧
      (∀ s : Str, (∀ r : Region, Region.toStr r ≠ s) →
        Region.fromStr s = .error (.DoesNotExist s)) := by
  constructor
  · exact Region.toStr_fromStr
  · intro s h
    rcases region_total s with herr | ⟨r, hok, hto⟩
    · exact herr
    · exact absurd hto (h r)

/-- C5 witness: a concrete variant round-trips and a concrete
non-table string fails carrying exactly itself. -/
theorem region_bijection_witness :
    Region.fromStr (Region.toStr Region.EuWest2) = .ok Region.EuWest2 ∧
      Region.fromStr (lit "us-east-3") = .error (.DoesNotExist (lit "us-east-3")) :=
  ⟨region_bijection.1 Region.EuWest2,
    region_bijection.2 (lit "us-east-3") (by intro r; cases r <;> decide)⟩

/-- C4: field length limits are checked exactly at the stated bounds
(in UTF-8 bytes, the unit `ArrayString` capacities count): a service of
exactly 32 units parses while 33 fails with `ServiceTooLong`, an
account of exactly 12 units parses while 13 fails with
`AccountTooLong`, and a resource id of exactly 64 units parses while 65
fails with `ResourceIdTooLong`, all other fields being valid. -/
theorem length_boundaries (t p0 p1 svc reg acct rid : Str)
    (hsplit : splitSep ':' t = [p0, p1, svc, reg, acct, rid])
    (hreg : reg = [] ∨ ∃ r, Region.toStr r = reg) :
    (byteLen svc = 32 → byteLen acct ≤ 12 → byteLen rid ≤ 64 →
      ∃ a, Arn.fromStr t = .ok a) ∧
    (byteLen svc = 33 → Arn.fromStr t = .error .ServiceTooLong) ∧
    (byteLen svc ≤ 32 → byteLen acct = 12 → byteLen rid ≤ 64 →
      ∃ a, Arn.fromStr t = .ok a) ∧
    (byteLen svc ≤ 32 → byteLen acct = 13 → Arn.fromStr t = .error .AccountTooLong) ∧
    (byteLen svc ≤ 32 → byteLen acct ≤ 12 → byteLen rid = 64 →
      ∃ a, Arn.fromStr t = .ok a) ∧
    (byteLen svc ≤ 32 → byteLen acct ≤ 12 → byteLen rid = 65 →
      Arn.fromStr t = .error .ResourceIdTooLong) := by
  have hrest : ([rid] : List Str) ≠ [] := by simp
  refine ⟨?_, ?_, ?_, ?_, ?_, ?_⟩
  · intro h1 h2 h3
    obtain ⟨a, hok, -⟩ := fromStr_ok_of_valid t p0 p1 svc reg acct [rid] hsplit hrest
      (le_of_eq h1) h2 h3 hreg
    exact ⟨a, hok⟩
  · intro h1
    exact fromStr_service_too_long t p0 p1 svc reg acct [rid] hsplit hrest
      (show ¬ byteLen svc ≤ 32 by omega)
  · intro h1 h2 h3
    obtain ⟨a, hok, -⟩ := fromStr_ok_of_valid t p0 p1 svc reg acct [rid] hsplit hrest
      h1 (le_of_eq h2) h3 hreg
    exact ⟨a, hok⟩
  · intro hs h1
    exact fromStr_account_too_long t p0 p1 svc reg acct [rid] hsplit hrest hs hreg
      (show ¬ byteLen acct ≤ 12 by omega)
  · intro h1 h2 h3
    obtain ⟨a, hok, -⟩ := fromStr_ok_of_valid t p0 p1 svc reg acct [rid] hsplit hrest
      h1 h2 (le_of_eq h3) hreg
    exact ⟨a, hok⟩
  · intro hs ha h1
    exact fromStr_resource_too_long t p0 p1 svc reg acct [rid] hsplit hrest hs hreg ha
      (show ¬ byteLen rid ≤ 64 by omega)

/-- C4 witness: the six boundary cases at concrete inputs (service 32
and 33 `a`s, account 12 and 13 `1`s, resource id 64 and 65 `r`s). -/
theorem length_boundaries_witness :
    (∃ a, Arn.fromStr
      (lit "arn:aws:aaaaaaaaaaaaaaaaaaaaaaaaaaaaaaaa:us-east-1:123456789012:bucket") =
        .ok a) ∧
    Arn.fromStr
      (lit "arn:aws:aaaaaaaaaaaaaaaaaaaaaaaaaaaaaaaaa:us-east-1:123456789012:bucket") =
        .error .ServiceTooLong ∧
    (∃ a, Arn.fromStr (lit "arn:aws:s3:us-east-1:111111111111:bucket") = .ok a) ∧
    Arn.fromStr (lit "arn:aws:s3:us-east-1:1111111111111:bucket") =
      .error .AccountTooLong ∧
    (∃ a, Arn.fromStr
      (lit "arn:aws:s3:us-east-1:123456789012:rrrrrrrrrrrrrrrrrrrrrrrrrrrrrrrrrrrrrrrrrrrrrrrrrrrrrrrrrrrrrrrr") =
        .ok a) ∧
    Arn.fromStr
      (lit "arn:aws:s3:us-east-1:123456789012:rrrrrrrrrrrrrrrrrrrrrrrrrrrrrrrrrrrrrrrrrrrrrrrrrrrrrrrrrrrrrrrrr") =
        .error .ResourceIdTooLong := by
  have hreg : lit "us-east-1" = [] ∨ ∃ r, Region.toStr r = lit "us-east-1" :=
    Or.inr ⟨Region.UsEast1, rfl⟩
  refine ⟨?_, ?_, ?_, ?_, ?_, ?_⟩
  · exact (length_boundaries _ (lit "arn") (lit "aws")
      (lit "aaaaaaaaaaaaaaaaaaaaaaaaaaaaaaaa") (lit "us-east-1") (lit "123456789012")
      (lit "bucket") (by decide) hreg).1 (by decide) (by decide) (by decide)
  · exact (length_boundaries _ (lit "arn") (lit "aws")
      (lit "aaaaaaaaaaaaaaaaaaaaaaaaaaaaaaaaa") (lit "us-east-1") (lit "123456789012")
      (lit "bucket") (by decide) hreg).2.1 (by decide)
  · exact (length_boundaries _ (lit "arn") (lit "aws") (lit "s3") (lit "us-east-1")
      (lit "111111111111") (lit "bucket") (by decide) hreg).2.2.1
      (by decide) (by decide) (by decide)
  · exact (length_boundaries _ (lit "arn") (lit "aws") (lit "s3") (lit "us-east-1")
      (lit "1111111111111") (lit "bucket") (by decide) hreg).2.2.2.1 (by decide) (by decide)
  · exact (length_boundaries _ (lit "arn") (lit "aws") (lit "s3") (lit "us-east-1")
      (lit "123456789012")
      (lit "rrrrrrrrrrrrrrrrrrrrrrrrrrrrrrrrrrrrrrrrrrrrrrrrrrrrrrrrrrrrrrrr")
      (by decide) hreg).2.2.2.2.1 (by decide) (by decide) (by decide)
  · exact (length_boundaries _ (lit "arn") (lit "aws") (lit "s3") (lit "us-east-1")
      (lit "123456789012")
      (lit "rrrrrrrrrrrrrrrrrrrrrrrrrrrrrrrrrrrrrrrrrrrrrrrrrrrrrrrrrrrrrrrrr")
      (by decide) hreg).2.2.2.2.2 (by decide) (by decide) (by decide)

/-- C6: the all-wildcard constant `Arn::ANY` renders to exactly
`arn:aws:*:*:*:*`. -/
theorem any_renders_all_wildcards : Arn.toStr Arn.ANY = lit "arn:aws:*:*:*:*" := by
  decide

/-- C7: all segments from index 5 onward are rejoined with the
separator into the single resource-id field, stored verbatim (as a
concrete `Value` when nonempty) and emitted verbatim by rendering as the
suffix of the output. -/
theorem resource_id_rejoined (t p0 p1 svc reg acct : Str) (rest : List Str) (a : Arn)
    (hsplit : splitSep ':' t = p0 :: p1 :: svc :: reg :: acct :: rest)
    (hrest : rest ≠ []) (hok : Arn.fromStr t = .ok a) :
    Component.render id a.resource_id = joinSep ':' rest ∧
      (joinSep ':' rest ≠ [] → a.resource_id = .Value (joinSep ':' rest)) ∧
      ∃ pre, Arn.toStr a = pre ++ joinSep ':' rest := by
  obtain ⟨-, -, -, hres⟩ := fromStr_ok_inv t a hok
  rw [hsplit] at hres
  simp only [List.drop_succ_cons, List.drop_zero] at hres
  have hrender := parseBounded_render 64 .ResourceIdTooLong _ _ hres
  refine ⟨hrender, ?_, ?_⟩
  · intro hne
    rcases (parseBounded_ok_iff 64 .ResourceIdTooLong _ _).mp hres with ⟨hnil, hc⟩ | ⟨-, -, hc⟩
    · exact absurd hnil hne
    · exact hc
  · refine ⟨lit "arn" ++ ':' :: lit "aws" ++ ':' :: Component.render id a.service ++
      ':' :: Component.render Region.toStr a.region ++ ':' ::
      Component.render id a.account ++ [':'], ?_⟩
    rw [← hrender]
    simp [Arn.toStr, joinSep, List.append_assoc]

/-- C7 witness: a resource id with embedded separators is stored and
rendered verbatim. -/
theorem resource_id_rejoined_witness :
    Arn.fromStr (lit "arn:aws:lambda:us-east-1:123456789012:function:my-function:$LATEST") =
      .ok (Arn.mk (.Value (lit "lambda")) (.Value .UsEast1) (.Value (lit "123456789012"))
        (.Value (lit "function:my-function:$LATEST"))) ∧
    Component.render id (Arn.mk (.Value (lit "lambda")) (.Value .UsEast1)
        (.Value (lit "123456789012")) (.Value (lit "function:my-function:$LATEST"))).resource_id =
      joinSep ':' [lit "function", lit "my-function", lit "$LATEST"] := by
  have hok : Arn.fromStr
      (lit "arn:aws:lambda:us-east-1:123456789012:function:my-function:$LATEST") =
      .ok (Arn.mk (.Value (lit "lambda")) (.Value .UsEast1) (.Value (lit "123456789012"))
        (.Value (lit "function:my-function:$LATEST"))) := by decide
  refine ⟨hok, ?_⟩
  exact (resource_id_rejoined
    (lit "arn:aws:lambda:us-east-1:123456789012:function:my-function:$LATEST")
    (lit "arn") (lit "aws") (lit "lambda") (lit "us-east-1") (lit "123456789012")
    [lit "function", lit "my-function", lit "$LATEST"] _ (by decide) (by decide) hok).1

/-- C8: the first two segments are consumed positionally without
validation: whenever the text splits into at least 6 segments the parse
result is a function of the segments from index 2 onward only; and
rendering always emits the fixed literals `arn` and `aws`, whatever the
source text contained in those two positions. -/
theorem first_two_segments_unchecked :
    (∀ t p0 p1 svc reg acct rest,
      splitSep ':' t = p0 :: p1 :: svc :: reg :: acct :: rest → rest ≠ [] →
      Arn.fromStr t = parseFields svc reg acct (joinSep ':' rest)) ∧
    (∀ a : Arn, Arn.toStr a = lit "arn:aws:" ++
      (Component.render id a.service ++ (':' :: (Component.render Region.toStr a.region ++
        (':' :: (Component.render id a.account ++
          (':' :: Component.render id a.resource_id))))))) := by
  constructor
  · intro t p0 p1 svc reg acct rest h hne
    exact Arn.fromStr_eq t p0 p1 svc reg acct rest h hne
  · intro a
    exact rfl

/-- C8 witness: a text with junk in the first two positions parses by
the same field function, and the all-wildcard value renders starting
with the fixed `arn:aws:` literals. -/
theorem first_two_segments_unchecked_witness :
    Arn.fromStr (lit "foo:bar:s3:us-east-1:123456789012:r") =
      parseFields (lit "s3") (lit "us-east-1") (lit "123456789012") (joinSep ':' [lit "r"]) ∧
    Arn.toStr Arn.ANY = lit "arn:aws:" ++
      (Component.render id Arn.ANY.service ++ (':' ::
        (Component.render Region.toStr Arn.ANY.region ++ (':' ::
          (Component.render id Arn.ANY.account ++ (':' ::
            Component.render id Arn.ANY.resource_id)))))) :=
  ⟨first_two_segments_unchecked.1 (lit "foo:bar:s3:us-east-1:123456789012:r")
      (lit "foo") (lit "bar") (lit "s3") (lit "us-east-1") (lit "123456789012") [lit "r"]
      (by decide) (by decide),
    first_two_segments_unchecked.2 Arn.ANY⟩

/-- C9: the parser never produces the Wildcard (`Any`) variant for any
field: every field of a successfully parsed value is `None` or a
concrete `Value`. -/
theorem parse_never_wildcard (t : Str) (a : Arn) (h : Arn.fromStr t = .ok a) :
    a.service ≠ .Any ∧ a.region ≠ .Any ∧ a.account ≠ .Any ∧ a.resource_id ≠ .Any := by
  obtain ⟨h1, h2, h3, h4⟩ := fromStr_ok_inv t a h
  exact ⟨parseBounded_ok_ne_any _ _ _ _ h1, parseRegion_ok_ne_any _ _ h2,
    parseBounded_ok_ne_any _ _ _ _ h3, parseBounded_ok_ne_any _ _ _ _ h4⟩

/-- C9 witness: parsing a text with a `*` service segment yields the
concrete one-character value `*`, not the Wildcard variant. -/
theorem parse_never_wildcard_witness :
    Arn.fromStr (lit "arn:aws:*:us-east-1:123456789012:r") =
      .ok (Arn.mk (.Value (lit "*")) (.Value .UsEast1) (.Value (lit "123456789012"))
        (.Value (lit "r"))) ∧
    (Arn.mk (.Value (lit "*")) (.Value .UsEast1) (.Value (lit "123456789012"))
      (.Value (lit "r"))).service = Component.Value (lit "*") ∧
    (Arn.mk (.Value (lit "*")) (.Value .UsEast1) (.Value (lit "123456789012"))
      (.Value (lit "r"))).service ≠ Component.Any := by
  have hok : Arn.fromStr (lit "arn:aws:*:us-east-1:123456789012:r") =
      .ok (Arn.mk (.Value (lit "*")) (.Value .UsEast1) (.Value (lit "123456789012"))
        (.Value (lit "r"))) := by decide
  exact ⟨hok, rfl, (parse_never_wildcard _ _ hok).1⟩

/-- C10: the parse result does not depend on the contents of the first
two segments: two texts that split into equally many (at least 6)
segments and agree from index 2 onward parse to the same result, so
either both fail or both succeed with structurally equal values. -/
theorem parse_ignores_first_two_segments (t1 t2 : Str)
    (hlen : (splitSep ':' t1).length = (splitSep ':' t2).length)
    (h6 : 6 ≤ (splitSep ':' t1).length)
    (hdrop : (splitSep ':' t1).drop 2 = (splitSep ':' t2).drop 2) :
    Arn.fromStr t1 = Arn.fromStr t2 :=
  fromStr_congr t1 t2 hlen h6 hdrop

/-- C10 witness: two texts differing only in the first two segments
parse identically. -/
theorem parse_ignores_first_two_segments_witness :
    Arn.fromStr (lit "arn:aws:s3:us-east-1:123456789012:r") =
      Arn.fromStr (lit "xxx:yyy:s3:us-east-1:123456789012:r") :=
  parse_ignores_first_two_segments (lit "arn:aws:s3:us-east-1:123456789012:r")
    (lit "xxx:yyy:s3:us-east-1:123456789012:r") (by decide) (by decide) (by decide)
